import Mathlib

/-!
Verification of the EOIR FOIA CSV row-reconciliation and type-validation
engine: a shallow embedding of the relevant parts of
src/eoir_foia/core/csv.py (class CsvValidator), src/eoir_foia/core/clean.py
(copy_csv_to_table serialization) and legacy/cleancsv.py (class CleanCsv),
followed by theorems settling the frozen claims.

Conventions of the embedding:
- a Python str is a Lean String (a list of characters);
- a Python list of cells is a Lean List String;
- Python dicts are association lists with first-match lookup;
- the csv module, the datetime and time parsers and the re module are
  external libraries: the two ISO parsers and the regex matcher are
  abstracted as boolean-valued parameters collected in a PyLib record, and
  the integer parser int() is modelled explicitly (pyIntParses);
- Python exceptions that the source catches are compiled into the control
  flow (Option results), and file IO is out of scope: the functions are
  modelled from the point where the csv rows have been parsed.
-/

/-- Character codes that Python str.isspace and str.strip treat as
whitespace, restricted to the latin-1 range the source decodes with. -/
def pyWsCodes : List Nat := [9, 10, 11, 12, 13, 28, 29, 30, 31, 32, 133]

/-- Test for a Python whitespace character. -/
def isPySpaceChar (c : Char) : Bool := c.toNat ∈ pyWsCodes

/-- Python str.isspace: nonempty and every character is whitespace. -/
def pyIsSpace (s : String) : Bool :=
  !s.data.isEmpty && s.data.all isPySpaceChar

/-- Drop characters satisfying p from the end of a list. -/
def dropEndWhile (p : Char → Bool) (l : List Char) : List Char :=
  (l.reverse.dropWhile p).reverse

/-- Python str.strip(chars): remove characters satisfying p from both ends. -/
def stripBy (p : Char → Bool) (s : String) : String :=
  ⟨dropEndWhile p (s.data.dropWhile p)⟩

/-- Python value.strip() with default whitespace characters. -/
def pyStrip (s : String) : String := stripBy isPySpaceChar s

/-- Python value.strip(chr92), removing backslashes from both ends. -/
def stripBackslashes (s : String) : String := stripBy (fun c => c = '\\') s

/-- Python value.replace(pipe, empty): remove every pipe character. -/
def stripPipes (s : String) : String := ⟨s.data.filter (fun c => c ≠ '|')⟩

/-- Python value.replace(letter O, digit 0) as used by convert_integer. -/
def replaceO0 (s : String) : String :=
  ⟨s.data.map (fun c => if c = 'O' then '0' else c)⟩

/-- The null sentinel: the two-character token backslash-N. -/
def nullToken : String := "\\N"

/-- Character-list prefix test (kernel-reducible). -/
def charsLeading : List Char → List Char → Bool
  | [], _ => true
  | _ :: _, [] => false
  | a :: as, b :: bs => a = b && charsLeading as bs

/-- Python s.startswith(p). -/
def pyStartsWith (s p : String) : Bool := charsLeading p.data s.data

/-- Python s.endswith(p). -/
def pyEndsWith (s p : String) : Bool :=
  charsLeading p.data.reverse s.data.reverse

/-- Adjacent underscores are not allowed inside a Python integer literal. -/
def noDoubleUnderscore : List Char → Bool
  | a :: b :: t => !(a = '_' && b = '_') && noDoubleUnderscore (b :: t)
  | _ => true

/-- Body of a Python decimal integer literal: nonempty, digits with single
underscores strictly between digits. -/
def pyDigitGroup (l : List Char) : Bool :=
  !l.isEmpty
    && l.all (fun c => c.isDigit || c = '_')
    && (match l.head? with | some c => c.isDigit | none => false)
    && (match l.getLast? with | some c => c.isDigit | none => false)
    && noDoubleUnderscore l

/-- Python int(s) succeeds: optional surrounding whitespace, optional sign,
then a digit group. -/
def pyIntParses (s : String) : Bool :=
  match dropEndWhile isPySpaceChar (s.data.dropWhile isPySpaceChar) with
  | [] => false
  | c :: rest =>
    if c = '+' ∨ c = '-' then pyDigitGroup rest else pyDigitGroup (c :: rest)

/-- External library parsers the source calls: datetime.fromisoformat,
time.fromisoformat and re.match. They live outside the repository, so the
embedding quantifies over them. -/
structure PyLib where
  isoDatetimeOk : String → Bool
  isoTimeOk : String → Bool
  reMatch : String → String → Bool

/-- CsvValidator.is_nul_like from src/eoir_foia/core/csv.py. -/
def is_nul_like (value : String) : Bool :=
  if value = "" ∨ value = "b6" ∨ value = "N/A" ∨ value = "A.2.a" then true
  else if pyIsSpace value then true
  else if (value.data.head? = some '?') ∧ value.data.all (fun c => c = '?') then true
  else if (value.data.head? = some '0') ∧ value.data.all (fun c => c = '0') then true
  else false

/-- CsvValidator.convert_integer: substitute the letter O by the digit 0,
then require the result to parse as a Python int; on failure return the
null sentinel, on success the substituted string. -/
def convert_integer (value : String) : String :=
  let v := replaceO0 value
  if pyIntParses v then v else nullToken

/-- CsvValidator.convert_timestamp: accept iff datetime.fromisoformat
succeeds, otherwise the null sentinel. -/
def convert_timestamp (L : PyLib) (value : String) : String :=
  if L.isoDatetimeOk value then value else nullToken

/-- CsvValidator.convert_time: a 4-character value containing a colon is
zero-padded and stripped of colons, then the value re-delimited as HH:MM
is parsed by time.fromisoformat; failure gives the null sentinel. -/
def convert_time (L : PyLib) (value : String) : String :=
  let v :=
    if value.length = 4 ∧ value.data.contains ':' then
      ⟨('0' :: value.data).filter (fun c => c ≠ ':')⟩
    else value
  if L.isoTimeOk ⟨v.data.take 2 ++ ':' :: v.data.drop 2⟩ then v else nullToken

/-- RowModification dataclass from src/eoir_foia/core/csv.py. -/
structure RowModification where
  row_number : Nat
  modification_type : String
  column_affected : Option String
  original_value : String
  new_value : String
  reason : String
deriving DecidableEq

/-- CsvValidator._create_row_modification. -/
def mkMod (n : Nat) (t : String) (c : Option String) (o nv r : String) :
    RowModification :=
  ⟨n, t, c, o, nv, r⟩

/-- The per-file state of a CsvValidator instance: the header (whose
length is the declared width W), the file-specific validation rules from
FILE_SPECIFIC_RULES, and the dtype mapping loaded from the table-dtypes
resource (empty when that resource is missing). -/
structure CsvValidator where
  header : List String
  auto_truncate : Bool
  expected_extra_cols : Nat
  skip_validation_cols : List String
  high_nul_tolerance : Bool
  dtypes : List (String × String)
deriving DecidableEq

/-- Lookup of a column name in the dtype mapping (Python dict access). -/
def dtypeOf (V : CsvValidator) (col : String) : Option String :=
  (V.dtypes.find? (fun p => p.1 = col)).map (fun p => p.2)

/-- CsvValidator.correct_row_length: reconcile a row against the header
width W, returning the corrected row and the modifications made. -/
def correct_row_length (V : CsvValidator) (row : List String) (n : Nat) :
    List String × List RowModification :=
  let W := V.header.length
  if row.length = W then (row, [])
  else if W < row.length then
    if V.auto_truncate then
      let extra := V.expected_extra_cols
      if row.length = W + extra then
        if (row.drop W).all is_nul_like then
          let corrected := row.take W
          (corrected,
            [mkMod n "truncate" none
              ("Length " ++ toString row.length)
              ("Length " ++ toString corrected.length)
              ("Auto-truncated " ++ toString extra ++ " empty trailing columns")])
        else
          (row,
            [mkMod n "flag_long_row" none
              ("Length " ++ toString row.length)
              ("Length " ++ toString row.length)
              ("Row has " ++ toString (row.length - W) ++ " extra columns with data")])
      else
        (row,
          [mkMod n "flag_unexpected_length" none
            ("Length " ++ toString row.length)
            ("Length " ++ toString row.length)
            ("Unexpected row length: expected " ++ toString W ++ " + "
              ++ toString extra ++ ", got " ++ toString row.length)])
    else
      (row,
        [mkMod n "flag_long_row" none
          ("Length " ++ toString row.length)
          ("Length " ++ toString row.length)
          ("Row too long: expected " ++ toString W ++ ", got " ++ toString row.length)])
  else
    let missing := W - row.length
    let corrected := row ++ List.replicate missing ""
    (corrected,
      [mkMod n "pad" none
        ("Length " ++ toString row.length)
        ("Length " ++ toString corrected.length)
        ("Padded " ++ toString missing ++ " missing columns with empty values")])

/-- CsvValidator.validate_primary_key: flag an empty row or a null-like
first cell with an empty_primary_key modification. -/
def validate_primary_key (V : CsvValidator) (row : List String) (n : Nat) :
    Option RowModification :=
  if row.isEmpty then
    some (mkMod n "empty_primary_key" V.header.head? "[EMPTY ROW]" "INVALID"
      "Row is completely empty")
  else if is_nul_like (row.headD "") then
    some (mkMod n "empty_primary_key" V.header.head? (row.headD "") "INVALID"
      "Primary key cannot be empty or null-like")
  else none

/-- One cell of CsvValidator.clean_row in the branch where the dtype
mapping is nonempty: cells at or beyond the header width are left
untouched (the loop breaks there), a column absent from the mapping is
only stripped of pipes, otherwise the null-like test and the declared
type conversion run, recording a convert_to_null modification when a
non-sentinel value becomes the sentinel. -/
def clean_cell (V : CsvValidator) (L : PyLib) (n i : Nat) (value : String) :
    String × List RowModification :=
  if V.header.length ≤ i then (value, [])
  else
    let col_name := V.header.getD i ""
    match dtypeOf V col_name with
    | none => (stripPipes value, [])
    | some dtype =>
      let v := pyStrip (stripBackslashes value)
      if is_nul_like v then
        (nullToken,
          if value ≠ nullToken then
            [mkMod n "convert_to_null" (some col_name) value nullToken
              "Converted null-like value"]
          else [])
      else if dtype = "timestamp without time zone" then
        let conv := convert_timestamp L v
        (conv,
          if conv = nullToken ∧ value ≠ nullToken then
            [mkMod n "convert_to_null" (some col_name) value nullToken
              "Invalid timestamp format"]
          else [])
      else if dtype = "time without time zone" then
        let conv := convert_time L v
        (conv,
          if conv = nullToken ∧ value ≠ nullToken then
            [mkMod n "convert_to_null" (some col_name) value nullToken
              "Invalid time format"]
          else [])
      else if dtype = "integer" then
        let conv := convert_integer v
        (conv,
          if conv = nullToken ∧ value ≠ nullToken then
            [mkMod n "convert_to_null" (some col_name) value nullToken
              "Invalid integer format"]
          else [])
      else (stripPipes v, [])

/-- The cell loop of CsvValidator.clean_row, indexed from i. -/
def clean_cells (V : CsvValidator) (L : PyLib) (n : Nat) :
    Nat → List String → List String × List RowModification
  | _, [] => ([], [])
  | i, v :: rest =>
    let c := clean_cell V L n i v
    let r := clean_cells V L n (i + 1) rest
    (c.1 :: r.1, c.2 ++ r.2)

/-- CsvValidator.clean_row: with no dtype information every cell is only
stripped of pipe characters; otherwise each cell up to the header width is
cleaned by clean_cell. Returns the cleaned row together with the
convert_to_null modifications it records. -/
def clean_row (V : CsvValidator) (L : PyLib) (n : Nat) (row : List String) :
    List String × List RowModification :=
  if V.dtypes.isEmpty then (row.map stripPipes, [])
  else clean_cells V L n 0 row

/-- One cell of CsvValidator.detect_data_quality_issues: exempt columns
and, under high nul tolerance, null-like values are skipped before the
dtype lookup; the per-type checks report the stripped value with the
reason string of the source. -/
def detect_cell (V : CsvValidator) (L : PyLib) (i : Nat) (value : String) :
    List (Nat × String × String) :=
  if V.header.length ≤ i then []
  else
    let col_name := V.header.getD i ""
    if col_name ∈ V.skip_validation_cols then []
    else if V.high_nul_tolerance && is_nul_like value then []
    else
      match dtypeOf V col_name with
      | none => []
      | some dtype =>
        let v := pyStrip (stripBackslashes value)
        if is_nul_like v then []
        else if dtype = "timestamp without time zone" then
          if convert_timestamp L v = nullToken then
            [(i, v, "Invalid timestamp format")] else []
        else if dtype = "time without time zone" then
          if convert_time L v = nullToken then
            [(i, v, "Invalid time format")] else []
        else if dtype = "integer" then
          if convert_integer v = nullToken then
            [(i, v, "Invalid integer format")] else []
        else if pyStartsWith dtype "^" then
          if L.reMatch dtype v then []
          else [(i, v, "Does not match pattern " ++ dtype)]
        else []

/-- The cell loop of CsvValidator.detect_data_quality_issues. -/
def detect_cells (V : CsvValidator) (L : PyLib) :
    Nat → List String → List (Nat × String × String)
  | _, [] => []
  | i, v :: rest => detect_cell V L i v ++ detect_cells V L (i + 1) rest

/-- CsvValidator.detect_data_quality_issues: no bad values at all when the
dtype mapping is empty, otherwise the per-cell checks. -/
def detect_data_quality_issues (V : CsvValidator) (L : PyLib)
    (row : List String) : List (Nat × String × String) :=
  if V.dtypes.isEmpty then [] else detect_cells V L 0 row

/-- One entry of CsvValidator.bad_rows. -/
structure BadRowEntry where
  row_number : Nat
  original_row : List String
  corrected_row : List String
  bad_values : List (Nat × String × String)
  modifications : List RowModification
  has_empty_pk : Bool
deriving DecidableEq

/-- The mutable per-run state of a CsvValidator instance observable by the
claims: the stream of emitted records plus the tracking collections. -/
structure RunState where
  output : List (List String)
  modifications : List RowModification
  bad_rows : List BadRowEntry
  empty_primary_keys : List Nat
  empty_pk : Nat
deriving DecidableEq

/-- The initial run state. -/
def initState : RunState := ⟨[], [], [], [], 0⟩

/-- The body of the loop of CsvValidator.validate_and_process_rows for
one nonempty, non-header row: primary-key guard, row length correction,
bad value detection, bad-row tracking, then cleaning and emission. -/
def process_one (V : CsvValidator) (L : PyLib) (st : RunState)
    (row : List String) (n : Nat) : RunState :=
  let pk_issue := validate_primary_key V row n
  let st1 :=
    match pk_issue with
    | some m =>
      { st with
        empty_primary_keys := st.empty_primary_keys ++ [n]
        empty_pk := st.empty_pk + 1
        modifications := st.modifications ++ [m] }
    | none => st
  let cr := correct_row_length V row n
  let bad_values := detect_data_quality_issues V L cr.1
  let all_mods := cr.2 ++ (match pk_issue with | some m => [m] | none => [])
  let st2 :=
    if bad_values ≠ [] ∨ all_mods ≠ [] then
      { st1 with
        bad_rows := st1.bad_rows ++
          [⟨n, row, cr.1, bad_values, all_mods, pk_issue.isSome⟩]
        modifications := st1.modifications ++ cr.2 }
    else st1
  let cl := clean_row V L n cr.1
  { st2 with
    output := st2.output ++ [cl.1]
    modifications := st2.modifications ++ cl.2 }

/-- The enumerated loop of CsvValidator.validate_and_process_rows: empty
rows are skipped, the header row is skipped when skip_header is set, and
every other row is processed with row number i (or i plus one when the
header is not skipped). -/
def run_rows (V : CsvValidator) (L : PyLib) (sh : Bool) :
    Nat → RunState → List (List String) → RunState
  | _, st, [] => st
  | i, st, row :: rest =>
    let st' :=
      if row.isEmpty then st
      else if i = 0 ∧ sh then st
      else process_one V L st row (if sh then i else i + 1)
    run_rows V L sh (i + 1) st' rest

/-- CsvValidator.validate_and_process_rows over the parsed rows of the
file (header line included as the first row). -/
def validate_and_process_rows (V : CsvValidator) (L : PyLib)
    (rows : List (List String)) (sh : Bool) : RunState :=
  run_rows V L sh 0 initState rows

/-- Number of rows the loop of validate_and_process_rows processes and
emits: rows that are nonempty and not a skipped header. -/
def emitted_count (sh : Bool) : Nat → List (List String) → Nat
  | _, [] => 0
  | i, row :: rest =>
    (if row.isEmpty ∨ (i = 0 ∧ sh) then 0 else 1) + emitted_count sh (i + 1) rest

/-- The serialization of one cleaned row by copy_csv_to_table in
src/eoir_foia/core/clean.py: each empty or null-like cell becomes the
null sentinel, the cells are joined with pipes and a newline is
appended. -/
def format_cell (cell : String) : String :=
  if cell = "" ∨ is_nul_like cell then nullToken else cell

/-- The pipe-joined, newline-terminated line handed to the sink by
copy_csv_to_table. -/
def format_row (row : List String) : String :=
  String.intercalate "|" (row.map format_cell) ++ "\n"

/-- CsvValidator.replace_nul on the byte content of the file: every NUL
byte is removed (bytes.replace of the NUL byte by the empty bytes). -/
def replace_nul (data : List UInt8) : List UInt8 :=
  data.filter (fun b => b ≠ 0)

/-- The loop of CleanCsv.get_bad_values from legacy/cleancsv.py, with
the dtype mapping as the ordered list of its values and the lookup
tables abstracted as a membership test. Indexing the dtype list past its
end raises IndexError, which the source catches by returning the bad
values accumulated so far; completing the loop falls off the function and
returns Python None, modelled as none. An empty dtype tag also raises
IndexError at the subscript of its first character. -/
def legacy_gbv_go (d : List String) (L : PyLib) (codes : String → String → Bool) :
    Nat → List (Nat × String) → List String → Option (List (Nat × String))
  | _, _, [] => none
  | i, acc, value :: rest =>
    if i < d.length then
      let dtype := d.getD i ""
      let v := pyStrip (stripBackslashes value)
      if is_nul_like v then legacy_gbv_go d L codes (i + 1) acc rest
      else if dtype = "" then some acc
      else
        let acc' :=
          if pyStartsWith dtype "^" then
            if L.reMatch dtype v then acc else acc ++ [(i, v)]
          else if pyEndsWith dtype ".json" then
            if codes dtype v then acc else acc ++ [(i, v)]
          else if dtype = "timestamp without time zone" then
            if convert_timestamp L v = nullToken then acc ++ [(i, v)] else acc
          else if dtype = "time without time zone" then
            if convert_time L v = nullToken then acc ++ [(i, v)] else acc
          else if dtype = "integer" then
            if convert_integer v = nullToken then acc ++ [(i, v)] else acc
          else acc
        legacy_gbv_go d L codes (i + 1) acc' rest
    else some acc

/-- CleanCsv.get_bad_values from legacy/cleancsv.py. -/
def legacy_get_bad_values (d : List String) (L : PyLib)
    (codes : String → String → Bool) (row : List String) :
    Option (List (Nat × String)) :=
  legacy_gbv_go d L codes 0 [] row

/-- Python falsiness of the get_bad_values result: None or the empty
list. -/
def legacy_falsy : Option (List (Nat × String)) → Bool
  | none => true
  | some [] => true
  | some (_ :: _) => false

/-- The inner loop of CleanCsv.shift_values, for i in range(ix, 0, -1)
with current index given by the first Nat argument: the cell of the
original row at the current index is popped from the working copy when
null-like (pops accumulate across iterations), and the copy is returned
as soon as get_bad_values on it is falsy. -/
def legacy_shift_scan (d : List String) (L : PyLib)
    (codes : String → String → Bool) (row : List String) :
    Nat → List String → Option (List String)
  | 0, _ => none
  | Nat.succ j, rc =>
    let rc' :=
      if is_nul_like (row.getD (j + 1) "") then rc.eraseIdx (j + 1) else rc
    if legacy_falsy (legacy_get_bad_values d L codes rc') then some rc'
    else legacy_shift_scan d L codes row j rc'

/-- The outer loop of CleanCsv.shift_values over the bad values: each
starts a fresh copy of the row and scans backward from its column. -/
def legacy_shift_outer (d : List String) (L : PyLib)
    (codes : String → String → Bool) (row : List String) :
    List (Nat × String) → Option (List String)
  | [] => none
  | (ix, _) :: rest =>
    match legacy_shift_scan d L codes row ix row with
    | some rc => some rc
    | none => legacy_shift_outer d L codes row rest

/-- CleanCsv.shift_values from legacy/cleancsv.py. The source iterates
over the result of get_bad_values, which is only invoked on rows where
that result is a nonempty list; a Python None there would raise
TypeError, modelled by iterating over the empty list. -/
def shift_values (d : List String) (L : PyLib)
    (codes : String → String → Bool) (row : List String) :
    Option (List String) :=
  legacy_shift_outer d L codes row
    ((legacy_get_bad_values d L codes row).getD [])

/-- Modelled from the spec: the Value Validator per-column type-violation
check of section 4.3 that the section 4.2 fallback heuristic consults,
total over the schema width (no IndexError escape). The repository code
for the heuristic the spec describes is not under src, so this definition
follows the words of the spec for comparison with the source functions. -/
def spec_type_violations_go (d : List String) (L : PyLib)
    (codes : String → String → Bool) :
    Nat → List String → List (Nat × String)
  | _, [] => []
  | i, value :: rest =>
    if i < d.length then
      let dtype := d.getD i ""
      let v := pyStrip (stripBackslashes value)
      let here :=
        if is_nul_like v then []
        else if pyStartsWith dtype "^" then
          if L.reMatch dtype v then [] else [(i, v)]
        else if pyEndsWith dtype ".json" then
          if codes dtype v then [] else [(i, v)]
        else if dtype = "timestamp without time zone" then
          if convert_timestamp L v = nullToken then [(i, v)] else []
        else if dtype = "time without time zone" then
          if convert_time L v = nullToken then [(i, v)] else []
        else if dtype = "integer" then
          if convert_integer v = nullToken then [(i, v)] else []
        else []
      here ++ spec_type_violations_go d L codes (i + 1) rest
    else []

/-- Modelled from the spec: all type violations of a row, consulted by
the acceptance test of the fallback heuristic. -/
def spec_type_violations (d : List String) (L : PyLib)
    (codes : String → String → Bool) (row : List String) :
    List (Nat × String) :=
  spec_type_violations_go d L codes 0 row

/-- Modelled from the spec: the section 4.2 fallback single-column-shift
heuristic, scanning indices below the given bound in descending order.
At each index, only when the cell there is null-like, removal of that
single cell is tested; the first resulting width-W row with zero type
violations is accepted, otherwise the row stays flagged (none). -/
def spec_shift_go (d : List String) (L : PyLib)
    (codes : String → String → Bool) (W : Nat) (row : List String) :
    Nat → Option (List String)
  | 0 => none
  | Nat.succ j =>
    if is_nul_like (row.getD j "") then
      let cand := row.eraseIdx j
      if cand.length = W ∧ spec_type_violations d L codes cand = [] then
        some cand
      else spec_shift_go d L codes W row j
    else spec_shift_go d L codes W row j

/-- Modelled from the spec: the fallback single-column-shift heuristic,
started at the position of the flagged column and scanning backward over
the preceding indices. -/
def spec_shift_heuristic (d : List String) (L : PyLib)
    (codes : String → String → Bool) (W : Nat) (row : List String)
    (ix : Nat) : Option (List String) :=
  spec_shift_go d L codes W row ix

/-- A PyLib instance whose external parsers reject everything, used for
concrete evaluations that only exercise the integer and text paths. -/
def noLib : PyLib := ⟨fun _ => false, fun _ => false, fun _ _ => false⟩

/-- Lookup tables that contain no codes at all. -/
def noCodes : String → String → Bool := fun _ _ => false

/-- A one-column file with no special rules and no dtype mapping. -/
def V1 : CsvValidator := ⟨["A"], false, 0, [], false, []⟩

/-- The tbl_Court_Motions style policy on a width-5 file: auto truncation
with one expected extra column, no dtype mapping. -/
def V2 : CsvValidator := ⟨["A", "B", "C", "D", "E"], true, 1, [], false, []⟩

/-- A file whose exempt column REJ also carries a dtype entry. -/
def V3 : CsvValidator := ⟨["ID", "REJ"], false, 0, ["REJ"], false, [("REJ", "integer")]⟩

/-- A three-column all-integer file with no special rules, matching the
legacy dtype list d4. -/
def V4 : CsvValidator :=
  ⟨["C0", "C1", "C2"], false, 0, [], false,
    [("C0", "integer"), ("C1", "integer"), ("C2", "integer")]⟩

/-- The ordered legacy dtype list of V4. -/
def d4 : List String := ["integer", "integer", "integer"]

/-- The over-width row of the shift counterexample. -/
def rowShift : List String := ["1", "", "x", "5"]

/-- A one-column file whose single column has an integer dtype. -/
def V5 : CsvValidator := ⟨["AMT"], false, 0, [], false, [("AMT", "integer")]⟩

/-- A two-column file with no dtype mapping. -/
def V6 : CsvValidator := ⟨["ID", "X"], false, 0, [], false, []⟩

/-- A one-column file with a free-text dtype on its only column. -/
def V8 : CsvValidator := ⟨["A"], false, 0, [], false, [("A", "text")]⟩

/-- The list of rows used by the C10 witness. -/
def rows10 : List (List String) := [["H", "K"], [], [""], ["1", "a"]]

theorem clean_cells_length (V : CsvValidator) (L : PyLib) (n : Nat) :
    ∀ (i : Nat) (row : List String),
      ((clean_cells V L n i row).1).length = row.length := by
  intro i row
  induction row generalizing i with
  | nil => rfl
  | cons v rest ih => simp [clean_cells, ih]

theorem clean_row_length (V : CsvValidator) (L : PyLib) (n : Nat)
    (row : List String) : ((clean_row V L n row).1).length = row.length := by
  unfold clean_row
  split
  · simp
  · exact clean_cells_length V L n 0 row

theorem crl_shape (V : CsvValidator) (row : List String) (n : Nat) :
    (correct_row_length V row n).1 = row.take V.header.length ∨
    (correct_row_length V row n).1 = row ∨
    (correct_row_length V row n).1 =
      row ++ List.replicate (V.header.length - row.length) "" := by
  unfold correct_row_length
  dsimp only
  split_ifs <;> simp

theorem crl_mod_types (V : CsvValidator) (row : List String) (n : Nat) :
    ∀ m ∈ (correct_row_length V row n).2,
      m.modification_type = "truncate" ∨ m.modification_type = "flag_long_row" ∨
      m.modification_type = "flag_unexpected_length" ∨
      m.modification_type = "pad" := by
  unfold correct_row_length
  dsimp only
  split_ifs <;> intro m hm <;> simp only [List.mem_singleton, List.not_mem_nil] at hm <;>
    try subst hm <;> simp [mkMod]

theorem clean_cell_mod_type (V : CsvValidator) (L : PyLib) (n i : Nat)
    (v : String) : ∀ m ∈ (clean_cell V L n i v).2,
      m.modification_type = "convert_to_null" := by
  intro m hm
  unfold clean_cell at hm
  split at hm
  · simp at hm
  · dsimp only at hm
    rcases h : dtypeOf V (V.header.getD i "") with _ | dtype <;> rw [h] at hm
    · simp at hm
    · dsimp only at hm
      split_ifs at hm <;>
        simp only [List.mem_singleton, List.not_mem_nil] at hm <;>
        try subst hm <;> rfl

theorem clean_cells_mod_type (V : CsvValidator) (L : PyLib) (n : Nat) :
    ∀ (i : Nat) (row : List String), ∀ m ∈ (clean_cells V L n i row).2,
      m.modification_type = "convert_to_null" := by
  intro i row
  induction row generalizing i with
  | nil => intro m hm; simp [clean_cells] at hm
  | cons v rest ih =>
    intro m hm
    simp only [clean_cells, List.mem_append] at hm
    rcases hm with hm | hm
    · exact clean_cell_mod_type V L n i v m hm
    · exact ih (i + 1) m hm

theorem clean_row_mod_type (V : CsvValidator) (L : PyLib) (n : Nat)
    (row : List String) : ∀ m ∈ (clean_row V L n row).2,
      m.modification_type = "convert_to_null" := by
  unfold clean_row
  split
  · intro m hm; simp at hm
  · exact clean_cells_mod_type V L n 0 row

theorem vpk_of_ne_nil (V : CsvValidator) (row : List String) (n : Nat)
    (h : row ≠ []) (m : RowModification)
    (hm : validate_primary_key V row n = some m) :
    m.modification_type = "empty_primary_key" ∧
    m.reason = "Primary key cannot be empty or null-like" := by
  unfold validate_primary_key at hm
  rcases row with _ | ⟨a, t⟩
  · exact absurd rfl h
  · simp only [List.isEmpty_cons, if_false, Bool.false_eq_true] at hm
    split_ifs at hm
    · cases hm; exact ⟨rfl, rfl⟩

theorem process_one_output (V : CsvValidator) (L : PyLib) (st : RunState)
    (row : List String) (n : Nat) :
    (process_one V L st row n).output =
      st.output ++ [(clean_row V L n (correct_row_length V row n).1).1] := by
  unfold process_one
  rcases hpk : validate_primary_key V row n with _ | pm <;> dsimp only <;>
    split_ifs <;> rfl

theorem process_one_modifications_mem (V : CsvValidator) (L : PyLib)
    (st : RunState) (row : List String) (n : Nat) (h : row ≠ []) :
    ∀ m ∈ (process_one V L st row n).modifications,
      m ∈ st.modifications ∨
      (m.modification_type = "empty_primary_key" →
        m.reason = "Primary key cannot be empty or null-like") := by
  have hP : ∀ m : RowModification, m.modification_type ≠ "empty_primary_key" →
      (m ∈ st.modifications ∨
        (m.modification_type = "empty_primary_key" →
          m.reason = "Primary key cannot be empty or null-like")) :=
    fun m hne => Or.inr fun ht => absurd ht hne
  have hcrl2 : ∀ m ∈ (correct_row_length V row n).2,
      m ∈ st.modifications ∨
        (m.modification_type = "empty_primary_key" →
          m.reason = "Primary key cannot be empty or null-like") := by
    intro m hm
    refine hP m ?_
    rcases crl_mod_types V row n m hm with h4 | h4 | h4 | h4 <;> rw [h4] <;> decide
  have hcl2 : ∀ m ∈ (clean_row V L n (correct_row_length V row n).1).2,
      m ∈ st.modifications ∨
        (m.modification_type = "empty_primary_key" →
          m.reason = "Primary key cannot be empty or null-like") := by
    intro m hm
    refine hP m ?_
    rw [clean_row_mod_type V L n _ m hm]
    decide
  unfold process_one
  rcases hpk : validate_primary_key V row n with _ | pm <;> dsimp only <;>
    split_ifs <;> intro m hm <;>
    simp only [List.mem_append, List.mem_singleton] at hm
  · rcases hm with (hm | hm) | hm
    · exact Or.inl hm
    · exact hcrl2 m hm
    · exact hcl2 m hm
  · rcases hm with hm | hm
    · exact Or.inl hm
    · exact hcl2 m hm
  · rcases hm with ((hm | hm) | hm) | hm
    · exact Or.inl hm
    · subst hm
      exact Or.inr fun _ => (vpk_of_ne_nil V row n h m hpk).2
    · exact hcrl2 m hm
    · exact hcl2 m hm
  · rcases hm with (hm | hm) | hm
    · exact Or.inl hm
    · subst hm
      exact Or.inr fun _ => (vpk_of_ne_nil V row n h m hpk).2
    · exact hcl2 m hm

theorem process_one_bad_rows_mem (V : CsvValidator) (L : PyLib)
    (st : RunState) (row : List String) (n : Nat) :
    ∀ b ∈ (process_one V L st row n).bad_rows,
      b ∈ st.bad_rows ∨ b.original_row = row := by
  unfold process_one
  rcases hpk : validate_primary_key V row n with _ | pm <;> dsimp only <;>
    split_ifs <;> intro b hb <;>
    (try simp only [List.mem_append, List.mem_singleton] at hb) <;>
    first
      | exact Or.inl hb
      | (rcases hb with hb | hb
         · exact Or.inl hb
         · subst hb
           exact Or.inr rfl)

theorem run_rows_props (V : CsvValidator) (L : PyLib) (sh : Bool) :
    ∀ (rows : List (List String)) (i : Nat) (st : RunState),
      ((run_rows V L sh i st rows).output.length =
        st.output.length + emitted_count sh i rows)
      ∧ (∀ m ∈ (run_rows V L sh i st rows).modifications,
          m ∈ st.modifications ∨
          (m.modification_type = "empty_primary_key" →
            m.reason = "Primary key cannot be empty or null-like"))
      ∧ (∀ b ∈ (run_rows V L sh i st rows).bad_rows,
          b ∈ st.bad_rows ∨ b.original_row ≠ []) := by
  intro rows
  induction rows with
  | nil =>
    intro i st
    refine ⟨by simp [run_rows, emitted_count], ?_, ?_⟩ <;> intro x hx <;>
      exact Or.inl hx
  | cons row rest ih =>
    intro i st
    by_cases he : row.isEmpty
    · rw [show run_rows V L sh i st (row :: rest) =
          run_rows V L sh (i + 1) st rest by
            simp only [run_rows, if_pos he],
        show emitted_count sh i (row :: rest) =
          0 + emitted_count sh (i + 1) rest by
            simp only [emitted_count, if_pos (Or.inl he)]]
      refine ⟨?_, (ih (i + 1) st).2.1, (ih (i + 1) st).2.2⟩
      rw [(ih (i + 1) st).1]
      omega
    · have hrow : row ≠ [] := by
        rcases row with _ | _
        · exact absurd rfl he
        · exact fun hc => by cases hc
      by_cases hh : i = 0 ∧ sh = true
      · rw [show run_rows V L sh i st (row :: rest) =
            run_rows V L sh (i + 1) st rest by
              simp only [run_rows, if_neg he, if_pos hh],
          show emitted_count sh i (row :: rest) =
            0 + emitted_count sh (i + 1) rest by
              simp only [emitted_count, if_pos (Or.inr hh)]]
        refine ⟨?_, (ih (i + 1) st).2.1, (ih (i + 1) st).2.2⟩
        rw [(ih (i + 1) st).1]
        omega
      · have hns : ¬(row.isEmpty = true ∨ (i = 0 ∧ sh = true)) :=
          fun hor => hor.elim he hh
        rw [show run_rows V L sh i st (row :: rest) =
            run_rows V L sh (i + 1)
              (process_one V L st row (if sh = true then i else i + 1)) rest by
              simp only [run_rows, if_neg he, if_neg hh],
          show emitted_count sh i (row :: rest) =
            1 + emitted_count sh (i + 1) rest by
              simp only [emitted_count, if_neg hns]]
        have ih2 := ih (i + 1)
          (process_one V L st row (if sh = true then i else i + 1))
        refine ⟨?_, ?_, ?_⟩
        · rw [ih2.1, process_one_output]
          simp only [List.length_append, List.length_singleton]
          omega
        · intro m hm
          rcases ih2.2.1 m hm with hm2 | hm2
          · rcases process_one_modifications_mem V L st row
              (if sh = true then i else i + 1) hrow m hm2 with hm3 | hm3
            · exact Or.inl hm3
            · exact Or.inr hm3
          · exact Or.inr hm2
        · intro b hb
          rcases ih2.2.2 b hb with hb2 | hb2
          · rcases process_one_bad_rows_mem V L st row
              (if sh = true then i else i + 1) b hb2 with hb3 | hb3
            · exact Or.inl hb3
            · exact Or.inr (hb3 ▸ hrow)
          · exact Or.inr hb2

/-- C9: the NUL-stripping transform of CsvValidator.replace_nul is
idempotent: stripping NUL bytes from already-stripped content leaves it
unchanged, so a repeat run over the same source bytes produces identical
artifact content. -/
theorem C9_replace_nul_idempotent (data : List UInt8) :
    replace_nul (replace_nul data) = replace_nul data := by
  unfold replace_nul
  induction data with
  | nil => rfl
  | cons b t ih =>
    by_cases hb : b = 0
    · simp [hb, ih]
    · simp [List.filter_cons, hb, ih]

/-- C1 counterexample: a raw row of 2 cells on a file of declared width 1
with no auto-truncation rule is emitted by the pipeline (correct_row_length
followed by clean_row) at length 2, not at the header width 1, after a
flag_long_row modification. -/
theorem C1_counterexample :
    ((clean_row V1 noLib 1 (correct_row_length V1 ["a", "b"] 1).1).1).length = 2
    ∧ V1.header.length = 1
    ∧ (correct_row_length V1 ["a", "b"] 1).2.map
        (fun m => m.modification_type) = ["flag_long_row"] := by decide

/-- C1 amended: the record emitted by the pipeline (correct_row_length
followed by clean_row) has exactly W cells whenever the raw row has at
most W cells or the truncate branch applies; a longer row that is only
flagged is emitted at its raw over-width length. -/
theorem C1_amended_width (V : CsvValidator) (L : PyLib) (n : Nat)
    (row : List String) :
    ((clean_row V L n (correct_row_length V row n).1).1).length = V.header.length
    ∨ (V.header.length < row.length ∧
       ((clean_row V L n (correct_row_length V row n).1).1).length = row.length) := by
  rw [clean_row_length V L n (correct_row_length V row n).1]
  unfold correct_row_length
  dsimp only
  split_ifs with h1 h2 h3 h4 h5
  · exact Or.inl h1
  · refine Or.inl ?_
    rw [List.length_take]
    omega
  · exact Or.inr ⟨h2, rfl⟩
  · exact Or.inr ⟨h2, rfl⟩
  · exact Or.inr ⟨h2, rfl⟩
  · refine Or.inl ?_
    rw [List.length_append, List.length_replicate]
    omega

/-- C6: a nonempty row whose first cell is null-like increments the
missing-primary-key counter, is ledgered in empty_primary_keys, adds
exactly one empty_primary_key modification, and is still cleaned and
emitted to the output stream. -/
theorem C6_primary_key_guard (V : CsvValidator) (L : PyLib) (st : RunState)
    (row : List String) (n : Nat) (h1 : row ≠ [])
    (h2 : is_nul_like (row.headD "") = true) :
    (process_one V L st row n).output =
        st.output ++ [(clean_row V L n (correct_row_length V row n).1).1]
    ∧ (process_one V L st row n).empty_pk = st.empty_pk + 1
    ∧ (process_one V L st row n).empty_primary_keys =
        st.empty_primary_keys ++ [n]
    ∧ (process_one V L st row n).modifications.countP
        (fun m => m.modification_type == "empty_primary_key") =
      st.modifications.countP
        (fun m => m.modification_type == "empty_primary_key") + 1 := by
  have hpk : validate_primary_key V row n =
      some (mkMod n "empty_primary_key" V.header.head? (row.headD "") "INVALID"
        "Primary key cannot be empty or null-like") := by
    unfold validate_primary_key
    rcases row with _ | ⟨a, t⟩
    · exact absurd rfl h1
    · simp only [List.headD_cons] at h2
      simp only [List.isEmpty_cons, Bool.false_eq_true, if_false, h2, if_true,
        List.headD_cons]
  have hcnt_crl : (correct_row_length V row n).2.countP
      (fun m => m.modification_type == "empty_primary_key") = 0 := by
    refine List.countP_eq_zero.mpr fun m hm => ?_
    rcases crl_mod_types V row n m hm with h4 | h4 | h4 | h4 <;>
      simp [h4]
  have hcnt_cl : (clean_row V L n (correct_row_length V row n).1).2.countP
      (fun m => m.modification_type == "empty_primary_key") = 0 := by
    refine List.countP_eq_zero.mpr fun m hm => ?_
    simp [clean_row_mod_type V L n _ m hm]
  unfold process_one
  rw [hpk]
  dsimp only
  rw [if_pos (Or.inr (by simp))]
  refine ⟨rfl, rfl, rfl, ?_⟩
  simp only [List.countP_append, hcnt_crl, hcnt_cl]
  simp [mkMod, List.countP_cons]

/-- C6 witness: for a concrete two-column file and the row whose first
cell is empty, the guard counts, ledgers and still emits the row. -/
theorem C6_witness :
    (process_one V6 noLib initState ["", "x"] 3).output =
        initState.output ++
          [(clean_row V6 noLib 3 (correct_row_length V6 ["", "x"] 3).1).1]
    ∧ (process_one V6 noLib initState ["", "x"] 3).empty_pk =
        initState.empty_pk + 1
    ∧ (process_one V6 noLib initState ["", "x"] 3).empty_primary_keys =
        initState.empty_primary_keys ++ [3]
    ∧ (process_one V6 noLib initState ["", "x"] 3).modifications.countP
        (fun m => m.modification_type == "empty_primary_key") =
      initState.modifications.countP
        (fun m => m.modification_type == "empty_primary_key") + 1 :=
  C6_primary_key_guard V6 noLib initState ["", "x"] 3 (by decide) (by decide)

/-- C10: over a whole run of validate_and_process_rows, blank parsed rows
contribute no emitted record (the output length is exactly the number of
nonempty non-header rows), every empty_primary_key modification carries
the reason of the null-like-first-cell branch (so the branch of
validate_primary_key with reason Row is completely empty is unreachable),
and every bad-row entry comes from a nonempty raw row. -/
theorem C10_blank_rows_skipped (V : CsvValidator) (L : PyLib)
    (rows : List (List String)) (sh : Bool) :
    ((validate_and_process_rows V L rows sh).output.length =
      emitted_count sh 0 rows)
    ∧ (∀ m ∈ (validate_and_process_rows V L rows sh).modifications,
        m.modification_type = "empty_primary_key" →
        m.reason = "Primary key cannot be empty or null-like")
    ∧ (∀ b ∈ (validate_and_process_rows V L rows sh).bad_rows,
        b.original_row ≠ []) := by
  have h := run_rows_props V L sh rows 0 initState
  refine ⟨?_, ?_, ?_⟩
  · rw [show validate_and_process_rows V L rows sh =
      run_rows V L sh 0 initState rows from rfl, h.1]
    simp [initState]
  · intro m hm
    rcases h.2.1 m hm with hm2 | hm2
    · exact absurd hm2 (by simp [initState])
    · exact hm2
  · intro b hb
    rcases h.2.2 b hb with hb2 | hb2
    · exact absurd hb2 (by simp [initState])
    · exact hb2

/-- C10 witness: a concrete run containing a blank row and a row with a
null-like primary key; the blank row yields nothing and the recorded
empty_primary_key modification carries the reachable reason. -/
theorem C10_witness :
    (validate_and_process_rows V6 noLib rows10 true).output.length =
      emitted_count true 0 rows10
    ∧ (mkMod 2 "empty_primary_key" (some "ID") "" "INVALID"
        "Primary key cannot be empty or null-like").reason =
      "Primary key cannot be empty or null-like" := by
  refine ⟨(C10_blank_rows_skipped V6 noLib rows10 true).1, ?_⟩
  exact (C10_blank_rows_skipped V6 noLib rows10 true).2.1
    (mkMod 2 "empty_primary_key" (some "ID") "" "INVALID"
      "Primary key cannot be empty or null-like") (by decide) (by decide)

/-- C2: for a long row under an auto-truncation policy,
correct_row_length truncates to the first W cells with one truncate
modification when the row length is W plus the expected extra columns and
every trailing extra cell is null-like; it keeps the full row with one
flag_long_row modification when some trailing cell has data; and it keeps
the full row with one flag_unexpected_length modification for any other
length greater than W. -/
theorem C2_long_row_policy (V : CsvValidator) (row : List String) (n : Nat)
    (hauto : V.auto_truncate = true)
    (hlong : V.header.length < row.length) :
    (row.length = V.header.length + V.expected_extra_cols →
      ((row.drop V.header.length).all is_nul_like = true →
        (correct_row_length V row n).1 = row.take V.header.length ∧
        (correct_row_length V row n).2.map (fun m => m.modification_type) =
          ["truncate"])
      ∧ ((row.drop V.header.length).all is_nul_like = false →
        (correct_row_length V row n).1 = row ∧
        (correct_row_length V row n).2.map (fun m => m.modification_type) =
          ["flag_long_row"]))
    ∧ (row.length ≠ V.header.length + V.expected_extra_cols →
      (correct_row_length V row n).1 = row ∧
      (correct_row_length V row n).2.map (fun m => m.modification_type) =
        ["flag_unexpected_length"]) := by
  have hne : row.length ≠ V.header.length := by omega
  unfold correct_row_length
  dsimp only
  rw [if_neg hne, if_pos hlong, if_pos hauto]
  constructor
  · intro hlen
    rw [if_pos hlen]
    constructor
    · intro hall
      rw [if_pos hall]
      exact ⟨rfl, rfl⟩
    · intro hall
      rw [if_neg (by rw [hall]; exact Bool.false_ne_true)]
      exact ⟨rfl, rfl⟩
  · intro hlen
    rw [if_neg hlen]
    exact ⟨rfl, rfl⟩

/-- C2 witness: width 5, auto-truncation with one expected extra column,
a 6-cell row with an empty last cell is truncated to its first 5 cells
with a single truncate modification. -/
theorem C2_witness :
    (correct_row_length V2 ["a", "b", "c", "d", "e", ""] 1).1 =
        (["a", "b", "c", "d", "e", ""] : List String).take V2.header.length
    ∧ (correct_row_length V2 ["a", "b", "c", "d", "e", ""] 1).2.map
        (fun m => m.modification_type) = ["truncate"] :=
  ((C2_long_row_policy V2 ["a", "b", "c", "d", "e", ""] 1 (by decide)
    (by decide)).1 (by decide)).1 (by decide)

/-- C7: with an empty dtype mapping (the degraded mode entered when the
type-mapping resource is missing) the validator reports no bad values,
clean_row only strips pipe characters and records nothing, and width
repair still runs: short rows are padded to the header width with one pad
modification, exact rows pass through untouched, and long rows are
still flagged. -/
theorem C7_structural_only_mode (V : CsvValidator) (L : PyLib) (n : Nat)
    (row : List String) (h : V.dtypes = []) :
    detect_data_quality_issues V L row = []
    ∧ clean_row V L n row = (row.map stripPipes, [])
    ∧ (row.length < V.header.length →
        ((correct_row_length V row n).1).length = V.header.length ∧
        (correct_row_length V row n).2.map (fun m => m.modification_type) =
          ["pad"])
    ∧ (row.length = V.header.length → correct_row_length V row n = (row, []))
    ∧ (V.header.length < row.length → V.auto_truncate = false →
        (correct_row_length V row n).1 = row ∧
        (correct_row_length V row n).2.map (fun m => m.modification_type) =
          ["flag_long_row"]) := by
  have hemp : V.dtypes.isEmpty = true := by rw [h]; rfl
  refine ⟨?_, ?_, ?_, ?_, ?_⟩
  · unfold detect_data_quality_issues
    rw [if_pos hemp]
  · unfold clean_row
    rw [if_pos hemp]
  · intro hshort
    unfold correct_row_length
    dsimp only
    rw [if_neg (by omega), if_neg (by omega)]
    refine ⟨?_, rfl⟩
    rw [List.length_append, List.length_replicate]
    omega
  · intro hexact
    unfold correct_row_length
    dsimp only
    rw [if_pos hexact]
  · intro hlong hnoauto
    unfold correct_row_length
    dsimp only
    rw [if_neg (by omega), if_pos hlong,
      if_neg (by rw [hnoauto]; exact Bool.false_ne_true)]
    exact ⟨rfl, rfl⟩

/-- C7 witness: the validator V1 has an empty dtype mapping; a short row
is padded to the width, detection reports nothing and cleaning only
strips pipes. -/
theorem C7_witness :
    detect_data_quality_issues V1 noLib ["x"] = []
    ∧ clean_row V1 noLib 4 ["x"] = (["x"].map stripPipes, [])
    ∧ (correct_row_length V1 [] 4).1.length = V1.header.length
    ∧ (correct_row_length V1 [] 4).2.map (fun m => m.modification_type) =
        ["pad"] := by
  refine ⟨(C7_structural_only_mode V1 noLib 4 ["x"] rfl).1,
    (C7_structural_only_mode V1 noLib 4 ["x"] rfl).2.1, ?_, ?_⟩
  · exact ((C7_structural_only_mode V1 noLib 4 [] rfl).2.2.1 (by decide)).1
  · exact ((C7_structural_only_mode V1 noLib 4 [] rfl).2.2.1 (by decide)).2

theorem detect_cell_mem (V : CsvValidator) (L : PyLib) (i : Nat)
    (value : String) (t : Nat × String × String)
    (ht : t ∈ detect_cell V L i value) :
    t.1 = i ∧ V.header.getD i "" ∉ V.skip_validation_cols := by
  unfold detect_cell at ht
  split at ht
  · simp at ht
  · dsimp only at ht
    split at ht
    · simp at ht
    · rename_i hskip
      split at ht
      · simp at ht
      · rcases hd : dtypeOf V (V.header.getD i "") with _ | dtype <;> rw [hd] at ht
        · simp at ht
        · dsimp only at ht
          split_ifs at ht <;>
            simp only [List.mem_singleton, List.not_mem_nil] at ht <;>
            (subst ht; exact ⟨rfl, hskip⟩)

theorem detect_cells_mem (V : CsvValidator) (L : PyLib) :
    ∀ (i : Nat) (row : List String) (t : Nat × String × String),
      t ∈ detect_cells V L i row →
      V.header.getD t.1 "" ∉ V.skip_validation_cols := by
  intro i row
  induction row generalizing i with
  | nil => intro t ht; simp [detect_cells] at ht
  | cons v rest ih =>
    intro t ht
    simp only [detect_cells, List.mem_append] at ht
    rcases ht with ht | ht
    · rcases detect_cell_mem V L i v t ht with ⟨h1, h2⟩
      rw [h1]
      exact h2
    · exact ih (i + 1) t ht

theorem clean_cells_getD (V : CsvValidator) (L : PyLib) (n : Nat) :
    ∀ (row : List String) (j i : Nat), i < row.length →
      ((clean_cells V L n j row).1).getD i "" =
        (clean_cell V L n (j + i) (row.getD i "")).1 := by
  intro row
  induction row with
  | nil => intro j i h; simp at h
  | cons v rest ih =>
    intro j i h
    cases i with
    | zero => simp [clean_cells]
    | succ k =>
      simp only [clean_cells, List.getD_cons_succ]
      rw [ih (j + 1) k (by simpa using h)]
      rw [show j + (k + 1) = j + 1 + k by omega]

/-- C3 counterexample: REJ is in the exempt set of V3 yet clean_row
converts its null-like value to the null sentinel and records a
convert_to_null modification for it. -/
theorem C3_counterexample :
    "REJ" ∈ V3.skip_validation_cols
    ∧ (clean_row V3 noLib 5 ["1", ""]).1 = ["1", "\\N"]
    ∧ (clean_row V3 noLib 5 ["1", ""]).2 =
        [mkMod 5 "convert_to_null" (some "REJ") "" "\\N"
          "Converted null-like value"] := by decide

/-- C3 amended: membership in the exempt set suppresses bad-value
detection only — detect_data_quality_issues never reports a column of the
exempt set — while clean_row ignores the exempt set entirely: a column
passes through merely pipe-stripped exactly when it has no entry in the
dtype mapping. -/
theorem C3_amended_exempt :
    (∀ (V : CsvValidator) (L : PyLib) (row : List String)
      (t : Nat × String × String), t ∈ detect_data_quality_issues V L row →
      V.header.getD t.1 "" ∉ V.skip_validation_cols)
    ∧ (∀ (V : CsvValidator) (L : PyLib) (n i : Nat) (row : List String),
      i < row.length → i < V.header.length →
      dtypeOf V (V.header.getD i "") = none →
      ((clean_row V L n row).1).getD i "" = stripPipes (row.getD i "")) := by
  constructor
  · intro V L row t ht
    unfold detect_data_quality_issues at ht
    split_ifs at ht
    · simp at ht
    · exact detect_cells_mem V L 0 row t ht
  · intro V L n i row hr hi hd
    unfold clean_row
    split_ifs with hemp
    · rw [List.getD_eq_getElem _ _ (by simpa using hr),
        List.getD_eq_getElem _ _ hr, List.getElem_map]
    · rw [clean_cells_getD V L n row 0 i hr]
      unfold clean_cell
      rw [if_neg (by omega)]
      dsimp only
      rw [show (0 : Nat) + i = i by omega] at *
      rw [hd]

/-- C3 witness: a detected bad value always sits in a non-exempt column,
and a column with no dtype entry passes through pipe-stripped. -/
theorem C3_witness :
    V5.header.getD 0 "" ∉ V5.skip_validation_cols
    ∧ ((clean_row V3 noLib 1 ["p|q", "3"]).1).getD 0 "" = stripPipes "p|q" := by
  constructor
  · exact C3_amended_exempt.1 V5 noLib ["x"]
      (0, "x", "Invalid integer format") (by decide)
  · exact C3_amended_exempt.2 V3 noLib 1 0 ["p|q", "3"] (by decide) (by decide)
      (by decide)

/-- C5 counterexample: for a failing integer value the recorded reason is
the capitalized string Invalid integer format, not the lowercase form the
claim quotes, and when the original cell is already literally the null
sentinel no modification is recorded at all. -/
theorem C5_counterexample :
    clean_cell V5 noLib 2 0 "abc" =
      ("\\N", [mkMod 2 "convert_to_null" (some "AMT") "abc" "\\N"
        "Invalid integer format"])
    ∧ ("Invalid integer format" : String) ≠ "invalid integer format"
    ∧ ((clean_cell V5 noLib 2 0 "abc").2.filter
        (fun m => m.reason == "invalid integer format")).length = 0
    ∧ clean_cell V5 noLib 2 0 "\\N" = ("\\N", []) := by decide

/-- C5 amended: in an integer column, a non-null-like stripped value has
its letter O characters replaced by the digit 0; if the substituted
string parses as a Python int the emitted cell is that substituted string
with no modification, and otherwise the emitted cell is the null sentinel
with exactly one convert_to_null modification whose reason is Invalid
integer format, recorded only when the original cell is not already the
literal null sentinel. -/
theorem C5_amended_integer (V : CsvValidator) (L : PyLib) (n i : Nat)
    (value : String) (hi : i < V.header.length)
    (hd : dtypeOf V (V.header.getD i "") = some "integer")
    (hnul : is_nul_like (pyStrip (stripBackslashes value)) = false) :
    (pyIntParses (replaceO0 (pyStrip (stripBackslashes value))) = true →
      clean_cell V L n i value =
        (replaceO0 (pyStrip (stripBackslashes value)), []))
    ∧ (pyIntParses (replaceO0 (pyStrip (stripBackslashes value))) = false →
      (value ≠ nullToken →
        clean_cell V L n i value =
          (nullToken, [mkMod n "convert_to_null" (some (V.header.getD i ""))
            value nullToken "Invalid integer format"]))
      ∧ (value = nullToken → clean_cell V L n i value = (nullToken, []))) := by
  unfold clean_cell
  rw [if_neg (by omega)]
  dsimp only
  rw [hd]
  dsimp only
  rw [if_neg (by rw [hnul]; exact Bool.false_ne_true),
    if_neg (by decide), if_neg (by decide), if_pos rfl]
  unfold convert_integer
  dsimp only
  constructor
  · intro hp
    rw [if_pos hp]
    have hne : replaceO0 (pyStrip (stripBackslashes value)) ≠ nullToken := by
      intro hq
      rw [hq] at hp
      exact absurd hp (by decide)
    rw [if_neg (fun hc => hne hc.1)]
  · intro hp
    rw [if_neg (by rw [hp]; exact Bool.false_ne_true)]
    constructor
    · intro hv
      rw [if_pos ⟨rfl, hv⟩]
    · intro hv
      rw [if_neg (fun hc => hc.2 hv)]

/-- C5 witness: the spec example O42 becomes 042 with no modification,
and a non-parsing value becomes the null sentinel with the single
capitalized-reason modification. -/
theorem C5_witness :
    clean_cell V5 noLib 2 0 "O42" = ("042", [])
    ∧ clean_cell V5 noLib 2 0 "abc" =
        (nullToken, [mkMod 2 "convert_to_null" (some (V5.header.getD 0 ""))
          "abc" nullToken "Invalid integer format"]) := by
  constructor
  · have h := (C5_amended_integer V5 noLib 2 0 "O42" (by decide) (by decide)
      (by decide)).1 (by decide)
    rw [h]
    decide
  · exact ((C5_amended_integer V5 noLib 2 0 "abc" (by decide) (by decide)
      (by decide)).2 (by decide)).1 (by decide)

theorem legacy_gbv_complete (d : List String) (L : PyLib)
    (codes : String → String → Bool) (hd : ∀ t ∈ d, t ≠ "") :
    ∀ (rc : List String) (i : Nat) (acc : List (Nat × String)),
      i + rc.length ≤ d.length →
      legacy_gbv_go d L codes i acc rc = none := by
  intro rc
  induction rc with
  | nil => intro i acc h; rfl
  | cons v rest ih =>
    intro i acc h
    have hi : i < d.length := by
      simp only [List.length_cons] at h
      omega
    have hrest : i + 1 + rest.length ≤ d.length := by
      simp only [List.length_cons] at h
      omega
    have hdt : d.getD i "" ≠ "" := by
      refine hd _ ?_
      rw [List.getD_eq_getElem d "" hi]
      exact List.getElem_mem hi
    unfold legacy_gbv_go
    rw [if_pos hi]
    dsimp only
    by_cases h1 : is_nul_like (pyStrip (stripBackslashes v)) = true
    · rw [if_pos h1]
      exact ih (i + 1) acc hrest
    · rw [if_neg h1, if_neg hdt]
      exact ih (i + 1) _ hrest

theorem legacy_scan_first_fit (d : List String) (L : PyLib)
    (codes : String → String → Bool) (hd : ∀ t ∈ d, t ≠ "")
    (row rc : List String) (j : Nat)
    (hlen : (if is_nul_like (row.getD (j + 1) "") = true
      then rc.eraseIdx (j + 1) else rc).length ≤ d.length) :
    legacy_shift_scan d L codes row (j + 1) rc =
      some (if is_nul_like (row.getD (j + 1) "") = true
        then rc.eraseIdx (j + 1) else rc) := by
  have hnone : legacy_get_bad_values d L codes
      (if is_nul_like (row.getD (j + 1) "") = true
        then rc.eraseIdx (j + 1) else rc) = none :=
    legacy_gbv_complete d L codes hd _ 0 [] (by simpa using hlen)
  unfold legacy_shift_scan
  dsimp only
  rw [hnone]
  rfl

/-- C4 counterexample: on the over-width row with exactly one flagged
type violation, the legacy shift_values accepts a width-W row that still
contains a type violation (the acceptance test is falsy for every row not
longer than the dtype list), the heuristic as the spec words it leaves
the row flagged, and the rewritten correct_row_length performs no shift
at all, only flagging the row. -/
theorem C4_counterexample :
    legacy_get_bad_values d4 noLib noCodes rowShift = some [(2, "x")]
    ∧ shift_values d4 noLib noCodes rowShift = some ["1", "x", "5"]
    ∧ spec_type_violations d4 noLib noCodes ["1", "x", "5"] = [(1, "x")]
    ∧ spec_shift_heuristic d4 noLib noCodes 3 rowShift 2 = none
    ∧ (correct_row_length V4 rowShift 7).1 = rowShift
    ∧ (correct_row_length V4 rowShift 7).2.map
        (fun m => m.modification_type) = ["flag_long_row"] := by decide

/-- C4 amended: the rewritten engine has no shift realignment at all —
correct_row_length only tail-truncates, pads or returns the row unchanged
and never emits a realign kind; the legacy shift_values scan is bounded
and works on a copy, but its acceptance test is falsy for any candidate
whose length is within the dtype list (when no dtype tag is empty), so
the scan accepts the first cumulative removal that brings the row within
the schema width, regardless of remaining type violations. -/
theorem C4_amended_heuristic :
    (∀ (V : CsvValidator) (row : List String) (n : Nat),
      ((correct_row_length V row n).1 = row.take V.header.length ∨
       (correct_row_length V row n).1 = row ∨
       (correct_row_length V row n).1 =
         row ++ List.replicate (V.header.length - row.length) "")
      ∧ ∀ m ∈ (correct_row_length V row n).2,
          m.modification_type = "truncate" ∨
          m.modification_type = "flag_long_row" ∨
          m.modification_type = "flag_unexpected_length" ∨
          m.modification_type = "pad")
    ∧ (∀ (d : List String) (L : PyLib) (codes : String → String → Bool)
        (rc : List String), (∀ t ∈ d, t ≠ "") → rc.length ≤ d.length →
        legacy_get_bad_values d L codes rc = none)
    ∧ (∀ (d : List String) (L : PyLib) (codes : String → String → Bool)
        (row rc : List String) (j : Nat), (∀ t ∈ d, t ≠ "") →
        (if is_nul_like (row.getD (j + 1) "") = true
          then rc.eraseIdx (j + 1) else rc).length ≤ d.length →
        legacy_shift_scan d L codes row (j + 1) rc =
          some (if is_nul_like (row.getD (j + 1) "") = true
            then rc.eraseIdx (j + 1) else rc)) :=
  ⟨fun V row n => ⟨crl_shape V row n, crl_mod_types V row n⟩,
   fun d L codes rc hd h => legacy_gbv_complete d L codes hd rc 0 [] (by simpa),
   fun d L codes row rc j hd h => legacy_scan_first_fit d L codes hd row rc j h⟩

/-- C4 witness: concrete instantiations of the amended statement on the
counterexample data. -/
theorem C4_witness :
    ((correct_row_length V4 rowShift 7).1 = rowShift.take V4.header.length ∨
     (correct_row_length V4 rowShift 7).1 = rowShift ∨
     (correct_row_length V4 rowShift 7).1 =
       rowShift ++ List.replicate (V4.header.length - rowShift.length) "")
    ∧ legacy_get_bad_values d4 noLib noCodes ["1", "x", "5"] = none
    ∧ legacy_shift_scan d4 noLib noCodes rowShift 1 rowShift =
        some (if is_nul_like (rowShift.getD 1 "") = true
          then rowShift.eraseIdx 1 else rowShift) := by
  refine ⟨(C4_amended_heuristic.1 V4 rowShift 7).1, ?_, ?_⟩
  · exact C4_amended_heuristic.2.1 d4 noLib noCodes ["1", "x", "5"]
      (by decide) (by decide)
  · exact C4_amended_heuristic.2.2 d4 noLib noCodes rowShift rowShift 0
      (by decide) (by decide)

theorem pyDigitGroup_chars (l : List Char) (h : pyDigitGroup l = true) :
    ∀ c ∈ l, c ≠ '|' := by
  intro c hc he
  subst he
  unfold pyDigitGroup at h
  simp only [Bool.and_eq_true, List.all_eq_true] at h
  have h2 := h.1.1.1.2 '|' hc
  exact absurd h2 (by decide)

theorem pyIntParses_no_pipe (s : String) (h : pyIntParses s = true) :
    ∀ c ∈ s.data, c ≠ '|' := by
  intro c hc
  unfold pyIntParses at h
  have hsplit : c ∈ s.data.takeWhile isPySpaceChar ∨
      c ∈ s.data.dropWhile isPySpaceChar := by
    rw [← List.mem_append, List.takeWhile_append_dropWhile]
    exact hc
  rcases hsplit with hcs | hcs
  · have hw := List.mem_takeWhile_imp hcs
    intro he
    rw [he] at hw
    exact absurd hw (by decide)
  · have hc2 : c ∈ (s.data.dropWhile isPySpaceChar).reverse :=
      List.mem_reverse.mpr hcs
    have hsplit2 :
        c ∈ (s.data.dropWhile isPySpaceChar).reverse.takeWhile isPySpaceChar ∨
        c ∈ (s.data.dropWhile isPySpaceChar).reverse.dropWhile isPySpaceChar := by
      rw [← List.mem_append, List.takeWhile_append_dropWhile]
      exact hc2
    rcases hsplit2 with hcs2 | hcs2
    · have hw := List.mem_takeWhile_imp hcs2
      intro he
      rw [he] at hw
      exact absurd hw (by decide)
    · have hct : c ∈ dropEndWhile isPySpaceChar (s.data.dropWhile isPySpaceChar) := by
        unfold dropEndWhile
        exact List.mem_reverse.mpr hcs2
      rcases htt : dropEndWhile isPySpaceChar (s.data.dropWhile isPySpaceChar)
        with _ | ⟨a, rest⟩
      · rw [htt] at hct
        simp at hct
      · rw [htt] at hct h
        dsimp only at h
        by_cases hsign : a = '+' ∨ a = '-'
        · rw [if_pos hsign] at h
          rcases List.mem_cons.mp hct with he2 | he2
          · intro he
            rw [he] at he2
            rcases hsign with hs | hs <;> rw [hs] at he2 <;>
              exact absurd he2 (by decide)
          · exact pyDigitGroup_chars rest h c he2
        · rw [if_neg hsign] at h
          exact pyDigitGroup_chars (a :: rest) h c hct

theorem stripPipes_no_pipe (s : String) :
    ∀ c ∈ (stripPipes s).data, c ≠ '|' := by
  intro c hc he
  have hc2 : c ∈ s.data.filter (fun x => x ≠ '|') := hc
  have h2 := (List.mem_filter.mp hc2).2
  rw [he] at h2
  exact absurd h2 (by decide)

theorem convert_timestamp_no_pipe (L : PyLib) (v : String)
    (hdt : ∀ s, L.isoDatetimeOk s = true → ∀ c ∈ s.data, c ≠ '|') :
    ∀ c ∈ (convert_timestamp L v).data, c ≠ '|' := by
  intro c hc
  unfold convert_timestamp at hc
  by_cases hok : L.isoDatetimeOk v = true
  · rw [if_pos hok] at hc
    exact hdt v hok c hc
  · rw [if_neg hok] at hc
    intro he
    subst he
    exact absurd hc (by decide)

theorem ite_time_no_pipe (L : PyLib)
    (htm : ∀ s, L.isoTimeOk s = true → ∀ c ∈ s.data, c ≠ '|') (w : String) :
    ∀ c ∈ (if L.isoTimeOk ⟨w.data.take 2 ++ ':' :: w.data.drop 2⟩ then w
      else nullToken).data, c ≠ '|' := by
  intro c hc
  by_cases hok : L.isoTimeOk ⟨w.data.take 2 ++ ':' :: w.data.drop 2⟩ = true
  · rw [if_pos hok] at hc
    refine htm _ hok c ?_
    have h0 := hc
    rw [← List.take_append_drop 2 w.data] at h0
    rcases List.mem_append.mp h0 with h1 | h1
    · exact List.mem_append.mpr (Or.inl h1)
    · exact List.mem_append.mpr (Or.inr (List.mem_cons_of_mem ':' h1))
  · rw [if_neg hok] at hc
    intro he
    subst he
    exact absurd hc (by decide)

theorem convert_time_no_pipe (L : PyLib) (v : String)
    (htm : ∀ s, L.isoTimeOk s = true → ∀ c ∈ s.data, c ≠ '|') :
    ∀ c ∈ (convert_time L v).data, c ≠ '|' := by
  unfold convert_time
  dsimp only
  exact ite_time_no_pipe L htm _

theorem convert_integer_no_pipe (v : String) :
    ∀ c ∈ (convert_integer v).data, c ≠ '|' := by
  intro c hc
  unfold convert_integer at hc
  dsimp only at hc
  by_cases hp : pyIntParses (replaceO0 v) = true
  · rw [if_pos hp] at hc
    exact pyIntParses_no_pipe _ hp c hc
  · rw [if_neg hp] at hc
    intro he
    subst he
    exact absurd hc (by decide)

theorem nullToken_no_pipe : ∀ c ∈ nullToken.data, c ≠ '|' := by decide

theorem clean_cell_no_pipe (V : CsvValidator) (L : PyLib) (n i : Nat)
    (value : String)
    (hdt : ∀ s, L.isoDatetimeOk s = true → ∀ c ∈ s.data, c ≠ '|')
    (htm : ∀ s, L.isoTimeOk s = true → ∀ c ∈ s.data, c ≠ '|')
    (hi : i < V.header.length) :
    ∀ c ∈ ((clean_cell V L n i value).1).data, c ≠ '|' := by
  unfold clean_cell
  rw [if_neg (by omega)]
  dsimp only
  rcases hd : dtypeOf V (V.header.getD i "") with _ | dtype <;> dsimp only
  · exact stripPipes_no_pipe value
  · split_ifs <;> dsimp only
    · exact nullToken_no_pipe
    · exact nullToken_no_pipe
    · exact convert_timestamp_no_pipe L _ hdt
    · exact convert_timestamp_no_pipe L _ hdt
    · exact convert_time_no_pipe L _ htm
    · exact convert_time_no_pipe L _ htm
    · exact convert_integer_no_pipe _
    · exact convert_integer_no_pipe _
    · exact stripPipes_no_pipe _

theorem getLast_of_append_singleton (l : List Char) (c : Char) :
    (l ++ [c]).getLast? = some c := by
  simp [List.getLast?_concat]

/-- C8 counterexample: an over-width row on a file with a nonempty dtype
mapping is emitted with its overflow cell untouched by clean_row, so the
line handed to the sink contains a cell with an embedded pipe, and a NUL
character inside a free-text cell also survives cleaning. -/
theorem C8_counterexample :
    ((clean_row V8 noLib 2
        (correct_row_length V8 ["a\x00", "x|y"] 2).1).1).getD 1 "" = "x|y"
    ∧ '|' ∈ (((clean_row V8 noLib 2
        (correct_row_length V8 ["a\x00", "x|y"] 2).1).1).getD 1 "").data
    ∧ (Char.ofNat 0) ∈ (((clean_row V8 noLib 2
        (correct_row_length V8 ["a\x00", "x|y"] 2).1).1).getD 0 "").data := by
  decide

/-- C8 amended: the serialized line is pipe-joined and newline-terminated
and empty or null-like cells are mapped to the null sentinel; cells of
the cleaned record at indices below the header width are free of pipe
characters (given that the external datetime and time parsers accept only
pipe-free strings); cells beyond the header width are passed through
unsanitized. -/
theorem C8_amended_serialization (V : CsvValidator) (L : PyLib) (n : Nat)
    (row : List String) (i : Nat)
    (hdt : ∀ s, L.isoDatetimeOk s = true → ∀ c ∈ s.data, c ≠ '|')
    (htm : ∀ s, L.isoTimeOk s = true → ∀ c ∈ s.data, c ≠ '|')
    (hi : i < V.header.length) (hr : i < row.length) :
    (∀ c ∈ (((clean_row V L n row).1).getD i "").data, c ≠ '|')
    ∧ (∀ cell : String, cell = "" ∨ is_nul_like cell = true →
        format_cell cell = nullToken)
    ∧ (format_row ((clean_row V L n row).1)).data.getLast? = some '\n' := by
  refine ⟨?_, ?_, ?_⟩
  · unfold clean_row
    split_ifs with hemp
    · rw [List.getD_eq_getElem _ _ (by simpa using hr),
        List.getElem_map]
      exact stripPipes_no_pipe _
    · rw [clean_cells_getD V L n row 0 i hr]
      exact clean_cell_no_pipe V L n (0 + i) _ hdt htm (by omega)
  · intro cell hcell
    unfold format_cell
    rw [if_pos hcell]
  · unfold format_row
    rw [show (String.intercalate "|"
        (((clean_row V L n row).1).map format_cell) ++ "\n").data =
      (String.intercalate "|"
        (((clean_row V L n row).1).map format_cell)).data ++ ['\n'] from rfl]
    exact getLast_of_append_singleton _ '\n'

/-- C8 witness: on a width-correct row the single cell is emitted
pipe-free, empty cells serialize to the null sentinel, and the line is
newline-terminated. -/
theorem C8_witness :
    '|' ∉ (((clean_row V8 noLib 1 ["x|y"]).1).getD 0 "").data
    ∧ format_cell "" = nullToken
    ∧ (format_row ((clean_row V8 noLib 1 ["x|y"]).1)).data.getLast? =
        some '\n' := by
  have h := C8_amended_serialization V8 noLib 1 ["x|y"] 0
    (fun s hs => absurd hs (by simp [noLib]))
    (fun s hs => absurd hs (by simp [noLib]))
    (by decide) (by decide)
  exact ⟨fun hm => h.1 '|' hm rfl, h.2.1 "" (Or.inl rfl), h.2.2⟩

example : is_nul_like "" = true := by decide
example :
    (clean_row V1 noLib 1 (correct_row_length V1 ["a", "b"] 1).1).1 = ["a", "b"] := by
  decide
example :
    correct_row_length V2 ["a", "b", "c", "d", "e", ""] 1 =
      (["a", "b", "c", "d", "e"],
        [mkMod 1 "truncate" none "Length 6" "Length 5"
          "Auto-truncated 1 empty trailing columns"]) := by decide
example :
    (clean_row V3 noLib 5 ["1", ""]).1 = ["1", "\\N"] ∧
    (clean_row V3 noLib 5 ["1", ""]).2.map (fun m => m.modification_type) =
      ["convert_to_null"] := by decide
example : legacy_get_bad_values d4 noLib noCodes rowShift = some [(2, "x")] := by decide
example : shift_values d4 noLib noCodes rowShift = some ["1", "x", "5"] := by decide
example : spec_type_violations d4 noLib noCodes ["1", "x", "5"] = [(1, "x")] := by decide
example : spec_shift_heuristic d4 noLib noCodes 3 rowShift 2 = none := by decide
example :
    clean_cell V5 noLib 2 0 "abc" =
      ("\\N", [mkMod 2 "convert_to_null" (some "AMT") "abc" "\\N"
        "Invalid integer format"]) := by decide
example : clean_cell V5 noLib 2 0 "\\N" = ("\\N", []) := by decide
example : clean_cell V5 noLib 2 0 "O42" = ("042", []) := by decide
example :
    (clean_row V8 noLib 2 (correct_row_length V8 ["a\x00", "x|y"] 2).1).1 =
      ["a\x00", "x|y"] := by decide
example :
    (process_one V6 noLib initState ["", "x"] 3).empty_pk = 1 ∧
    (process_one V6 noLib initState ["", "x"] 3).output = [["", "x"]] := by decide
example :
    (validate_and_process_rows V6 noLib [["H", "K"], [], ["1", "a"]] true).output =
      [["1", "a"]] := by decide
example : is_nul_like "0000" = true := by decide
example : is_nul_like "  " = true := by decide
example : is_nul_like "b6" = true := by decide
example : is_nul_like "042" = false := by decide
example : convert_integer "O42" = "042" := by decide
example : convert_integer "abc" = "\\N" := by decide
example : pyIntParses "-1_2" = true := by decide
example : pyIntParses "1__2" = false := by decide
example : pyStrip "  a b " = "a b" := by decide
example : stripBackslashes "\\a\\" = "a" := by decide
